import Mathlib

/-!
Shallow embedding of `src/boost/synchronized.hpp` (and the concrete lock
doubles of `src/test.cpp`).

Modelling choices:

* C++ objects live at addresses.  A `World R σ` holds a store of resources
  (type `R`) and a store of mutex states (type `σ`), each addressed by `Nat`
  indices.  References in the C++ code become addresses into these stores.
* A mutex capability (the `Mutex` template parameter) is a `MutexModel σ ε`:
  `lock` and `unlock` each map a mutex state to the successor state together
  with `none` (the call returned normally) or `some e` (the call raised the
  exception `e`; the state change made before the throw persists, as in C++).
* `locked_ptr` keeps the source's fields: `ptr_` (a resource address, or
  `none` for `nullptr`) and `mutexAddr` (the `Mutex & mutex_` reference).
  The extra `constQualified` flag records whether the instantiation is
  `locked_ptr<Resource const, Mutex>` (the type returned by the const
  overload of `synchronized::lock`); it drives C++ overload resolution at
  member calls and has no run-time effect in the C++ code either.
* `synchronized` stores the addresses of its `resource_` and `mutex_`
  members.  Owning construction allocates fresh cells; the conversion
  constructors alias the other wrapper's cells.
-/

/-- Mutex capability: `lock` and `unlock` return the successor mutex state
and optionally a raised exception (the state change persists either way,
matching C++ exception semantics). -/
structure MutexModel (σ : Type) (ε : Type) where
  lock : σ → σ × Option ε
  unlock : σ → σ × Option ε

/-- World of allocated C++ objects: a store of resources and a store of
mutex states, addressed by `Nat`. -/
structure World (R : Type) (σ : Type) where
  res : List R
  mtx : List σ
deriving DecidableEq

/-- Read the resource at address `a` (valid addresses only are ever used). -/
def World.getRes [Inhabited R] (w : World R σ) (a : Nat) : R :=
  w.res.getD a default

/-- Overwrite the resource at address `a`. -/
def World.setRes (w : World R σ) (a : Nat) (r : R) : World R σ :=
  { w with res := w.res.set a r }

/-- Read the mutex state at address `a`. -/
def World.getMtx [Inhabited σ] (w : World R σ) (a : Nat) : σ :=
  w.mtx.getD a default

/-- Overwrite the mutex state at address `a`. -/
def World.setMtx (w : World R σ) (a : Nat) (m : σ) : World R σ :=
  { w with mtx := w.mtx.set a m }

/-- Guard object `locked_ptr<Resource, Mutex>`: field `ptr_` is the
`Resource * ptr_` member (`none` models `nullptr`), `mutexAddr` the
`Mutex & mutex_` reference, and `constQualified` records whether the
pointee type of the instantiation is const-qualified. -/
structure locked_ptr where
  ptr_ : Option Nat
  mutexAddr : Nat
  constQualified : Bool
deriving DecidableEq

/-- The guard is in the Owning state: its resource pointer is non-null. -/
def locked_ptr.owning (g : locked_ptr) : Bool :=
  g.ptr_.isSome

/-- Constructor `locked_ptr(Resource * ptr, Mutex & mutex)`: the members are
initialised first, then `if(ptr != nullptr){ mutex_.lock(); }`.  If `lock`
throws, the exception propagates and no guard object comes into existence
(its destructor will never run), which the `Except.error` branch models;
the mutex keeps whatever state the failed `lock` call left it in. -/
def locked_ptr.construct [Inhabited σ] (M : MutexModel σ ε) (constQ : Bool)
    (ptr : Option Nat) (ma : Nat) (w : World R σ) :
    Except (ε × World R σ) (locked_ptr × World R σ) :=
  match ptr with
  | none => Except.ok (⟨none, ma, constQ⟩, w)
  | some p =>
    match M.lock (w.getMtx ma) with
    | (m', none) => Except.ok (⟨some p, ma, constQ⟩, w.setMtx ma m')
    | (m', some e) => Except.error (e, w.setMtx ma m')

/-- Move constructor `locked_ptr(locked_ptr && other)`: copies `ptr_` and
the mutex reference, then sets `other.ptr_ = nullptr`.  Returns the pair
(newly constructed guard, source guard after the move).  No mutex operation
is invoked (the function does not touch any `World`). -/
def locked_ptr.moveConstruct (other : locked_ptr) : locked_ptr × locked_ptr :=
  (⟨other.ptr_, other.mutexAddr, other.constQualified⟩,
   { other with ptr_ := none })

/-- Destructor `~locked_ptr()`: `if (ptr_ != nullptr){ try{mutex_.unlock();}
catch (...){}; }`.  A null guard does nothing; otherwise `unlock` is called
exactly once and any exception it raises is caught and discarded — only the
state change of that single `unlock` call survives.  The return type
`World R σ` (not `Except`) reflects that no error can escape. -/
def locked_ptr.destruct [Inhabited σ] (M : MutexModel σ ε) (g : locked_ptr)
    (w : World R σ) : World R σ :=
  match g.ptr_ with
  | none => w
  | some _ => w.setMtx g.mutexAddr (M.unlock (w.getMtx g.mutexAddr)).1

/-- Dereference `operator*` / `operator->`: reads the pointee.  C++ leaves
dereferencing a null guard undefined; the model returns `none` there. -/
def locked_ptr.deref [Inhabited R] (g : locked_ptr) (w : World R σ) : Option R :=
  g.ptr_.map (fun a => w.getRes a)

/-- Write through the guard (e.g. `ptr->at(3) = 4` or an in-place sort
reached through `operator*`): applies `f` to the pointee.  Only legal on a
non-const, non-null guard in C++; a null guard is modelled as a no-op. -/
def locked_ptr.modify [Inhabited R] (g : locked_ptr) (f : R → R)
    (w : World R σ) : World R σ :=
  match g.ptr_ with
  | none => w
  | some a => w.setRes a (f (w.getRes a))

/-- C++ overload resolution at a member call through the guard: through
`locked_ptr<Resource const, Mutex>` the object expression is const, so the
const overload is selected; through `locked_ptr<Resource, Mutex>` the
mutable overload is selected. -/
def locked_ptr.accessConstness (g : locked_ptr) : Bool :=
  g.constQualified

/-- Non-const member functions of the resource are reachable through the
guard exactly when its pointee type is not const-qualified (a C++ type rule:
`Resource const *` gives access to const members only). -/
def locked_ptr.canMutate (g : locked_ptr) : Bool :=
  !g.constQualified

/-- Wrapper `synchronized<Resource, Mutex>`: holds the addresses of its
`mutable Mutex mutex_` and `Resource resource_` members.  A wrapper owning
its members holds fresh addresses; an aliasing wrapper (reference-typed
members) holds the addresses of another wrapper's members. -/
structure synchronized where
  resAddr : Nat
  mtxAddr : Nat
deriving DecidableEq

/-- Constructor `synchronized(Resource_Arg && resource, Mutex_Arg && mutex)`
with value-typed members: both members are freshly allocated and
initialised from the arguments. -/
def synchronized.construct (r : R) (m : σ) (w : World R σ) :
    synchronized × World R σ :=
  (⟨w.res.length, w.mtx.length⟩, ⟨w.res ++ [r], w.mtx ++ [m]⟩)

/-- Constructor `synchronized(Resource_Arg && resource, Mutex_Arg && mutex)`
with a reference-typed `Mutex` (e.g. `synchronized<int, mock_mutex &>`):
the resource member is freshly allocated, the mutex member is a reference
to the existing mutex at address `ma`. -/
def synchronized.constructShared (r : R) (ma : Nat) (w : World R σ) :
    synchronized × World R σ :=
  (⟨w.res.length, ma⟩, ⟨w.res ++ [r], w.mtx⟩)

/-- Conversion constructors `synchronized(synchronized<Other_resource,
Other_mutex> &)` and the const variant: delegate to the two-argument
constructor with `other.resource_` and `other.mutex_`, so a reference-typed
instantiation binds its members to the other wrapper's members — the new
wrapper shares both addresses. -/
def synchronized.convert (other : synchronized) : synchronized :=
  ⟨other.resAddr, other.mtxAddr⟩

/-- Mutable access operation `lock()`: builds a
`locked_ptr<resource_type, mutex_type>` from `std::addressof(resource_)`
(never null) and `mutex_`. -/
def synchronized.lock [Inhabited σ] (M : MutexModel σ ε) (s : synchronized)
    (w : World R σ) : Except (ε × World R σ) (locked_ptr × World R σ) :=
  locked_ptr.construct M false (some s.resAddr) s.mtxAddr w

/-- Const access operation `lock() const`: builds a
`locked_ptr<resource_type const, mutex_type>` from the same members. -/
def synchronized.lock_const [Inhabited σ] (M : MutexModel σ ε)
    (s : synchronized) (w : World R σ) :
    Except (ε × World R σ) (locked_ptr × World R σ) :=
  locked_ptr.construct M true (some s.resAddr) s.mtxAddr w

/-! Concrete lock doubles from `src/test.cpp`. -/

/-- Instrumented mutex of test `move_ptr`: counts `lock` and `unlock`
calls. -/
structure CountMutex where
  count_lock : Nat
  count_unlock : Nat
deriving DecidableEq

instance : Inhabited CountMutex := ⟨⟨0, 0⟩⟩

/-- The `mock_mutex` of test `move_ptr`: `lock(){ ++count_lock; }` and
`unlock(){ ++count_unlock; }`, neither ever throwing. -/
def countMutexModel : MutexModel CountMutex Nat where
  lock := fun m => (⟨m.count_lock + 1, m.count_unlock⟩, none)
  unlock := fun m => (⟨m.count_lock, m.count_unlock + 1⟩, none)

/-- The `mock_mutex` of test `synchronized_access`: a boolean `is_locked`
flag, `lock(){ is_locked = true; }`, `unlock(){ is_locked = false; }`. -/
def boolMutexModel : MutexModel Bool Nat where
  lock := fun _ => (true, none)
  unlock := fun _ => (false, none)

/-- `std::mutex::try_lock` on the boolean mutex state: acquires and reports
success when the mutex is free, fails when it is already held. -/
def std_mutex_try_lock (locked : Bool) : Bool × Bool :=
  if locked then (locked, false) else (true, true)

/-- The `mock_mutex` of test `avoid_undefined_behaviour_if_unlock_throws`:
`lock` is a no-op, `unlock` throws; the state counts how many `unlock`
calls were attempted. -/
def throwOnUnlockModel : MutexModel Nat Nat where
  lock := fun m => (m, none)
  unlock := fun m => (m + 1, some 7)

/-- A counting mutex whose `lock` raises error code 3 after recording the
call (an acquire-failure double; `unlock` behaves like `countMutexModel`). -/
def failAcquireModel : MutexModel CountMutex Nat where
  lock := fun m => (⟨m.count_lock + 1, m.count_unlock⟩, some 3)
  unlock := fun m => (⟨m.count_lock, m.count_unlock + 1⟩, none)

/-! Basic world lemmas. -/

/-- Reading a mutex cell just overwritten (at a valid address) yields the
written state. -/
theorem World.getMtx_setMtx_self [Inhabited σ] (w : World R σ) (a : Nat)
    (m : σ) (h : a < w.mtx.length) : (w.setMtx a m).getMtx a = m := by
  simp [World.getMtx, World.setMtx, List.getD, List.getElem?_set_self, h]

/-- Overwriting a mutex cell keeps the size of the mutex store. -/
theorem World.length_mtx_setMtx (w : World R σ) (a : Nat) (m : σ) :
    (w.setMtx a m).mtx.length = w.mtx.length := by
  simp [World.setMtx]

/-- C1: whenever the lock's acquire operation returns normally, both access
operations (`lock()` and `lock() const`) return a Guard in the Owning state
whose pointer is the wrapper's own resource address, and the resulting
world reflects exactly one application of the acquire operation, performed
before the Guard is returned. -/
theorem C1_access_always_acquires [Inhabited σ] (M : MutexModel σ ε)
    (s : synchronized) (w : World R σ) (m' : σ)
    (h : M.lock (w.getMtx s.mtxAddr) = (m', none)) :
    s.lock M w =
      Except.ok (locked_ptr.mk (some s.resAddr) s.mtxAddr false,
        w.setMtx s.mtxAddr m') ∧
    (locked_ptr.mk (some s.resAddr) s.mtxAddr false).owning = true ∧
    s.lock_const M w =
      Except.ok (locked_ptr.mk (some s.resAddr) s.mtxAddr true,
        w.setMtx s.mtxAddr m') ∧
    (locked_ptr.mk (some s.resAddr) s.mtxAddr true).owning = true := by
  refine ⟨?_, rfl, ?_, rfl⟩ <;>
    simp [synchronized.lock, synchronized.lock_const, locked_ptr.construct, h]

/-- Witness for C1 at the instrumented counting mutex: the acquire
succeeds, and the access operations return Owning guards having bumped the
acquire counter once. -/
theorem C1_witness :
    (synchronized.mk 0 0).lock countMutexModel
        (World.mk [42] [CountMutex.mk 0 0] : World Nat CountMutex) =
      Except.ok (locked_ptr.mk (some 0) 0 false,
        (World.mk [42] [CountMutex.mk 0 0] : World Nat CountMutex).setMtx 0
          (CountMutex.mk 1 0)) ∧
    (locked_ptr.mk (some 0) 0 false).owning = true ∧
    (synchronized.mk 0 0).lock_const countMutexModel
        (World.mk [42] [CountMutex.mk 0 0] : World Nat CountMutex) =
      Except.ok (locked_ptr.mk (some 0) 0 true,
        (World.mk [42] [CountMutex.mk 0 0] : World Nat CountMutex).setMtx 0
          (CountMutex.mk 1 0)) ∧
    (locked_ptr.mk (some 0) 0 true).owning = true :=
  C1_access_always_acquires countMutexModel (synchronized.mk 0 0)
    (World.mk [42] [CountMutex.mk 0 0]) (CountMutex.mk 1 0) rfl

/-- C3: for an Owning Guard whose lock raises an error on release, the
destructor still returns normally (its result type is a plain world — no
error channel exists on the destruction path, so nothing can propagate to
a caller), the error is discarded, and the mutex holds exactly the state
that the single, unrepeated `unlock` call left behind. -/
theorem C3_release_failure_swallowed [Inhabited σ] (M : MutexModel σ ε)
    (g : locked_ptr) (p : Nat) (w : World R σ) (m' : σ) (e : ε)
    (hg : g.ptr_ = some p)
    (hu : M.unlock (w.getMtx g.mutexAddr) = (m', some e)) :
    locked_ptr.destruct M g w = w.setMtx g.mutexAddr m' := by
  simp [locked_ptr.destruct, hg, hu]

/-- Witness for C3 at the throwing mock of test
`avoid_undefined_behaviour_if_unlock_throws`: the destructor of an Owning
guard returns a well-defined world recording exactly one unlock attempt. -/
theorem C3_witness :
    locked_ptr.destruct throwOnUnlockModel (locked_ptr.mk (some 0) 0 false)
        (World.mk [42] [0] : World Nat Nat) =
      (World.mk [42] [0] : World Nat Nat).setMtx 0 1 :=
  C3_release_failure_swallowed throwOnUnlockModel
    (locked_ptr.mk (some 0) 0 false) 0 (World.mk [42] [0]) 1 7 rfl rfl

/-- C4: when the lock's acquire operation raises an error during an access
operation, the very same error propagates to the caller, no Guard is
produced (the result is the error branch), and the world records exactly
the single failed acquire call — no retry and no release. -/
theorem C4_acquire_failure_propagates [Inhabited σ] (M : MutexModel σ ε)
    (s : synchronized) (w : World R σ) (m' : σ) (e : ε)
    (h : M.lock (w.getMtx s.mtxAddr) = (m', some e)) :
    s.lock M w = Except.error (e, w.setMtx s.mtxAddr m') ∧
    s.lock_const M w = Except.error (e, w.setMtx s.mtxAddr m') := by
  constructor <;>
    simp [synchronized.lock, synchronized.lock_const, locked_ptr.construct, h]

/-- Witness for C4 at a counting mutex whose acquire throws error code 3:
the error surfaces unchanged and the counters show one acquire, zero
releases. -/
theorem C4_witness :
    (synchronized.mk 0 0).lock failAcquireModel
        (World.mk [42] [CountMutex.mk 0 0] : World Nat CountMutex) =
      Except.error (3,
        (World.mk [42] [CountMutex.mk 0 0] : World Nat CountMutex).setMtx 0
          (CountMutex.mk 1 0)) ∧
    (synchronized.mk 0 0).lock_const failAcquireModel
        (World.mk [42] [CountMutex.mk 0 0] : World Nat CountMutex) =
      Except.error (3,
        (World.mk [42] [CountMutex.mk 0 0] : World Nat CountMutex).setMtx 0
          (CountMutex.mk 1 0)) :=
  C4_acquire_failure_propagates failAcquireModel (synchronized.mk 0 0)
    (World.mk [42] [CountMutex.mk 0 0]) (CountMutex.mk 1 0) 3 rfl

/-- C5: constructing a Guard from a null pointer performs no acquire call
and leaves the world untouched, the resulting empty Guard starts in the
Released state, its destruction performs no release call and also leaves
the world untouched; and on the boolean mutex model, after the empty
Guard's full lifetime an unrelated `try_lock` on the same (free) mutex
immediately succeeds. -/
theorem C5_null_guard_no_effects [Inhabited σ] (M : MutexModel σ ε)
    (constQ : Bool) (ma : Nat) (w : World R σ)
    (w2 : World Nat Bool) (ma2 : Nat) (h2 : w2.getMtx ma2 = false) :
    locked_ptr.construct M constQ none ma w =
      Except.ok (locked_ptr.mk none ma constQ, w) ∧
    (locked_ptr.mk none ma constQ).owning = false ∧
    locked_ptr.destruct M (locked_ptr.mk none ma constQ) w = w ∧
    locked_ptr.destruct boolMutexModel (locked_ptr.mk none ma2 false)
      (match locked_ptr.construct boolMutexModel false none ma2 w2 with
        | Except.ok gw => gw.2
        | Except.error ew => ew.2) = w2 ∧
    (std_mutex_try_lock (w2.getMtx ma2)).2 = true := by
  refine ⟨rfl, rfl, rfl, rfl, ?_⟩
  simp [h2, std_mutex_try_lock]

/-- Witness for C5: a null `locked_ptr<char, std::mutex>` over a free
mutex, as in test `nullptr_does_not_lock`. -/
theorem C5_witness :
    locked_ptr.construct boolMutexModel false none 0
        (World.mk [42] [false] : World Nat Bool) =
      Except.ok (locked_ptr.mk none 0 false,
        (World.mk [42] [false] : World Nat Bool)) ∧
    (locked_ptr.mk none 0 false).owning = false ∧
    locked_ptr.destruct boolMutexModel (locked_ptr.mk none 0 false)
      (World.mk [42] [false] : World Nat Bool) =
      (World.mk [42] [false] : World Nat Bool) ∧
    locked_ptr.destruct boolMutexModel (locked_ptr.mk none 0 false)
      (match locked_ptr.construct boolMutexModel false none 0
          (World.mk [42] [false] : World Nat Bool) with
        | Except.ok gw => gw.2
        | Except.error ew => ew.2) =
      (World.mk [42] [false] : World Nat Bool) ∧
    (std_mutex_try_lock ((World.mk [42] [false] : World Nat Bool).getMtx 0)).2 =
      true :=
  C5_null_guard_no_effects boolMutexModel false 0 (World.mk [42] [false])
    (World.mk [42] [false]) 0 rfl

/-- Scenario of test `move_ptr`: a wrapper over `42` sharing the counting
mutex at address 0, one guard obtained via `lock()`, then moved twice in a
chain, then all three guard objects destroyed in reverse construction
order at scope exit. -/
def moveScenario : World Nat CountMutex :=
  let w0 : World Nat CountMutex := ⟨[], [⟨0, 0⟩]⟩
  let sw := synchronized.constructShared 42 0 w0
  match sw.1.lock countMutexModel sw.2 with
  | Except.ok pw =>
    let mv1 := locked_ptr.moveConstruct pw.1
    let mv2 := locked_ptr.moveConstruct mv1.1
    let w3 := locked_ptr.destruct countMutexModel mv2.1 pw.2
    let w4 := locked_ptr.destruct countMutexModel mv2.2 w3
    locked_ptr.destruct countMutexModel mv1.2 w4
  | Except.error ew => ew.2

/-- C2: move-construction from an Owning Guard produces a new Owning Guard
with the same resource pointer and the same mutex reference, zeroes the
source's pointer (source becomes Released), and invokes no mutex operation
(`moveConstruct` does not touch the world at all); in the concrete
two-move scenario over the instrumented counting mutex, the final counters
read exactly one acquire and one release. -/
theorem C2_move_transfers_hold (g : locked_ptr) (p : Nat)
    (hg : g.ptr_ = some p) :
    (locked_ptr.moveConstruct g).1.ptr_ = some p ∧
    (locked_ptr.moveConstruct g).1.mutexAddr = g.mutexAddr ∧
    (locked_ptr.moveConstruct g).1.owning = true ∧
    (locked_ptr.moveConstruct g).2.ptr_ = none ∧
    (locked_ptr.moveConstruct g).2.owning = false ∧
    moveScenario.getMtx 0 = CountMutex.mk 1 1 := by
  refine ⟨?_, rfl, ?_, rfl, rfl, by decide⟩ <;>
    simp [locked_ptr.moveConstruct, locked_ptr.owning, hg]

/-- Witness for C2 at a concrete Owning guard. -/
theorem C2_witness :
    (locked_ptr.moveConstruct (locked_ptr.mk (some 5) 2 false)).1.ptr_ =
      some 5 ∧
    (locked_ptr.moveConstruct (locked_ptr.mk (some 5) 2 false)).1.mutexAddr =
      (locked_ptr.mk (some 5) 2 false).mutexAddr ∧
    (locked_ptr.moveConstruct (locked_ptr.mk (some 5) 2 false)).1.owning =
      true ∧
    (locked_ptr.moveConstruct (locked_ptr.mk (some 5) 2 false)).2.ptr_ =
      none ∧
    (locked_ptr.moveConstruct (locked_ptr.mk (some 5) 2 false)).2.owning =
      false ∧
    moveScenario.getMtx 0 = CountMutex.mk 1 1 :=
  C2_move_transfers_hold (locked_ptr.mk (some 5) 2 false) 5 rfl

/-! Type-level model of the template parameters (claim C6).  The template
head of `synchronized` is

  template<typename Resource,
           typename Mutex = typename std::conditional<
             std::is_lvalue_reference<Resource>::value,
             std::mutex&, std::mutex>::type>

so what matters for the ownership invariant is whether each parameter is
an lvalue reference type. -/

/-- Shape of a template argument: whether it is an lvalue reference type. -/
structure TypeForm where
  isRef : Bool
deriving DecidableEq

/-- The default `Mutex` argument,
`std::conditional<std::is_lvalue_reference<Resource>::value, std::mutex&,
std::mutex>::type`: a reference type exactly when `Resource` is one. -/
def default_mutex_form (res : TypeForm) : TypeForm :=
  ⟨res.isRef⟩

/-- Instantiation of the `synchronized` template: the resource form as
given, and the mutex form either explicitly supplied or the default; the
template imposes no further constraint between the two. -/
def synchronized_params (res : TypeForm) (explicitMutex : Option TypeForm) :
    TypeForm × TypeForm :=
  (res, explicitMutex.getD (default_mutex_form res))

/-- Counterexample to C6 as stated: the instantiation
`synchronized<int, mock_mutex&>` used by tests `synchronized_access` and
`move_ptr` is a wrapper instance whose Resource is owned by value while
its Lock is a reference — the code never forbids it, so the claimed
invariant fails on a wrapper instance occurring in the repository
itself. -/
theorem C6_counterexample :
    (synchronized_params (TypeForm.mk false) (some (TypeForm.mk true))).1.isRef
      = false ∧
    (synchronized_params (TypeForm.mk false) (some (TypeForm.mk true))).2.isRef
      = true := by
  decide

/-- C6 amended: the rule holds for the defaulted Lock parameter — when no
Lock type is supplied explicitly, the Lock is owned by value exactly when
the Resource is owned by value (and is a reference exactly when the
Resource is a reference); an explicitly supplied Lock type may break the
correspondence. -/
theorem C6_default_mutex_follows_resource (res : TypeForm) :
    (synchronized_params res none).2.isRef = res.isRef := by
  simp [synchronized_params, default_mutex_form]

/-- C7: the aliasing conversion yields a wrapper holding exactly the same
resource address and the same mutex address as the original wrapper;
locking the original or the converted wrapper (here over the boolean
`is_locked` mock) returns guards pointing at the identical resource
instance, and once the lock is acquired through one wrapper, the mutex the
other wrapper would have to acquire reads locked — a single shared
exclusion domain. -/
theorem C7_conversion_aliases (s : synchronized) (w w2 : World Nat Bool)
    (hm : s.mtxAddr < w.mtx.length) :
    (synchronized.convert s).resAddr = s.resAddr ∧
    (synchronized.convert s).mtxAddr = s.mtxAddr ∧
    s.lock boolMutexModel w =
      Except.ok (locked_ptr.mk (some s.resAddr) s.mtxAddr false,
        w.setMtx s.mtxAddr true) ∧
    (synchronized.convert s).lock boolMutexModel w2 =
      Except.ok (locked_ptr.mk (some s.resAddr) s.mtxAddr false,
        w2.setMtx s.mtxAddr true) ∧
    (w.setMtx s.mtxAddr true).getMtx ((synchronized.convert s).mtxAddr) =
      true := by
  refine ⟨rfl, rfl, rfl, rfl, ?_⟩
  exact World.getMtx_setMtx_self w s.mtxAddr true hm

/-- Witness for C7: a wrapper at addresses (0, 0) and its converted alias
over a one-mutex world. -/
theorem C7_witness :
    (synchronized.convert (synchronized.mk 0 0)).resAddr =
      (synchronized.mk 0 0).resAddr ∧
    (synchronized.convert (synchronized.mk 0 0)).mtxAddr =
      (synchronized.mk 0 0).mtxAddr ∧
    (synchronized.mk 0 0).lock boolMutexModel
        (World.mk [7] [false] : World Nat Bool) =
      Except.ok (locked_ptr.mk (some 0) 0 false,
        (World.mk [7] [false] : World Nat Bool).setMtx 0 true) ∧
    (synchronized.convert (synchronized.mk 0 0)).lock boolMutexModel
        (World.mk [7] [false] : World Nat Bool) =
      Except.ok (locked_ptr.mk (some 0) 0 false,
        (World.mk [7] [false] : World Nat Bool).setMtx 0 true) ∧
    ((World.mk [7] [false] : World Nat Bool).setMtx 0 true).getMtx
        ((synchronized.convert (synchronized.mk 0 0)).mtxAddr) = true :=
  C7_conversion_aliases (synchronized.mk 0 0) (World.mk [7] [false])
    (World.mk [7] [false]) (by decide)

/-- The overload pair of `struct test` in test `maintain_const_correctness`
(`bool is_const() { return false; }` and
`bool is_const() const { return true; }`), as a function of the constness
of the access path chosen by C++ overload resolution. -/
def test_resource_is_const : Bool → Bool
  | false => false
  | true => true

/-- C8: whenever the acquire succeeds, the mutable access operation yields
a non-const-qualified guard through which overload resolution selects the
mutable `is_const` overload (result `false`) and mutation is reachable,
while the read-only access operation yields a const-qualified guard
through which the const overload is selected (result `true`) and no
mutating member is reachable; both operations acquire the very same mutex
of the wrapper, leaving the identical world. -/
theorem C8_const_correctness [Inhabited σ] (M : MutexModel σ ε)
    (s : synchronized) (w : World R σ) (m' : σ)
    (h : M.lock (w.getMtx s.mtxAddr) = (m', none)) :
    s.lock M w =
      Except.ok (locked_ptr.mk (some s.resAddr) s.mtxAddr false,
        w.setMtx s.mtxAddr m') ∧
    s.lock_const M w =
      Except.ok (locked_ptr.mk (some s.resAddr) s.mtxAddr true,
        w.setMtx s.mtxAddr m') ∧
    test_resource_is_const
      ((locked_ptr.mk (some s.resAddr) s.mtxAddr false).accessConstness) =
      false ∧
    test_resource_is_const
      ((locked_ptr.mk (some s.resAddr) s.mtxAddr true).accessConstness) =
      true ∧
    (locked_ptr.mk (some s.resAddr) s.mtxAddr false).canMutate = true ∧
    (locked_ptr.mk (some s.resAddr) s.mtxAddr true).canMutate = false := by
  refine ⟨?_, ?_, rfl, rfl, rfl, rfl⟩ <;>
    simp [synchronized.lock, synchronized.lock_const, locked_ptr.construct, h]

/-- Witness for C8 over the counting mutex. -/
theorem C8_witness :
    (synchronized.mk 0 0).lock countMutexModel
        (World.mk [42] [CountMutex.mk 0 0] : World Nat CountMutex) =
      Except.ok (locked_ptr.mk (some 0) 0 false,
        (World.mk [42] [CountMutex.mk 0 0] : World Nat CountMutex).setMtx 0
          (CountMutex.mk 1 0)) ∧
    (synchronized.mk 0 0).lock_const countMutexModel
        (World.mk [42] [CountMutex.mk 0 0] : World Nat CountMutex) =
      Except.ok (locked_ptr.mk (some 0) 0 true,
        (World.mk [42] [CountMutex.mk 0 0] : World Nat CountMutex).setMtx 0
          (CountMutex.mk 1 0)) ∧
    test_resource_is_const
      ((locked_ptr.mk (some 0) 0 false).accessConstness) = false ∧
    test_resource_is_const
      ((locked_ptr.mk (some 0) 0 true).accessConstness) = true ∧
    (locked_ptr.mk (some 0) 0 false).canMutate = true ∧
    (locked_ptr.mk (some 0) 0 true).canMutate = false :=
  C8_const_correctness countMutexModel (synchronized.mk 0 0)
    (World.mk [42] [CountMutex.mk 0 0]) (CountMutex.mk 1 0) rfl

/-- Insertion of an element into an already sorted list (helper for the
model of `boost::range::sort`). -/
def insertSorted (x : Nat) : List Nat → List Nat
  | [] => [x]
  | y :: ys => if x ≤ y then x :: y :: ys else y :: insertSorted x ys

/-- Model of `boost::range::sort` applied to a `std::vector<int>`:
ascending in-place sort (insertion sort). -/
def sortList : List Nat → List Nat
  | [] => []
  | x :: xs => insertSorted x (sortList xs)

/-- Scenario of test `usage`: a wrapper owning the sequence
`[42,42,42,42,42]` and a fresh counting mutex; one guard is obtained,
index 3 is set to `4` through it, the sequence is sorted in place through
it, the guard is destroyed at scope exit; the counters are read after the
scope, then a fresh access operation reads the sequence.  Result: the
sequence seen through the fresh guard and the counters at scope exit. -/
def usageScenario : Option (List Nat) × CountMutex :=
  let w0 : World (List Nat) CountMutex := ⟨[], []⟩
  let sw := synchronized.construct [42, 42, 42, 42, 42] ⟨0, 0⟩ w0
  match sw.1.lock countMutexModel sw.2 with
  | Except.ok pw =>
    let w3 := locked_ptr.modify pw.1 (fun l => l.set 3 4) pw.2
    let w4 := locked_ptr.modify pw.1 sortList w3
    let w5 := locked_ptr.destruct countMutexModel pw.1 w4
    match sw.1.lock countMutexModel w5 with
    | Except.ok pw2 => (locked_ptr.deref pw2.1 pw2.2, w5.getMtx sw.1.mtxAddr)
    | Except.error ew => (none, ew.2.getMtx sw.1.mtxAddr)
  | Except.error ew => (none, ew.2.getMtx 0)

/-- C9: the usage scenario ends with the fresh access operation showing
`[4,42,42,42,42]` and the instrumented lock's counters both reading 1
after the first guard's scope exit. -/
theorem C9_usage_scenario :
    usageScenario = (some [4, 42, 42, 42, 42], CountMutex.mk 1 1) := by
  decide

/-! Pool semantics for claim C10: an arbitrary interleaving of guard moves
and guard destructions over one instrumented counting mutex. -/

/-- Number of guards of a pool that are in the Owning state. -/
def owningCount (gs : List locked_ptr) : Nat :=
  gs.countP (fun g => g.ptr_.isSome)

/-- An operation on a pool of guards: move-construct a new guard from
guard `i` (the moved-from source stays in the pool), or run guard `i`'s
destructor and drop it from the pool. -/
inductive GuardOp where
  | move : Nat → GuardOp
  | destroy : Nat → GuardOp
deriving DecidableEq

/-- One step on a pool of guards over the counting mutex: `move i`
move-constructs a new guard from guard `i` (the new guard is appended and
the source is kept in its moved-from state — no mutex call is involved);
`destroy i` runs guard `i`'s destructor and removes it from the pool.
Out-of-range indices are no-ops. -/
def guardStep (st : List locked_ptr × World R CountMutex) (op : GuardOp) :
    List locked_ptr × World R CountMutex :=
  match op with
  | GuardOp.move i =>
    match st.1.get? i with
    | some g =>
      ((st.1.set i (locked_ptr.moveConstruct g).2) ++
        [(locked_ptr.moveConstruct g).1], st.2)
    | none => st
  | GuardOp.destroy i =>
    match st.1.get? i with
    | some g => (st.1.eraseIdx i, locked_ptr.destruct countMutexModel g st.2)
    | none => st

/-- Run a sequence of pool operations. -/
def guardRun (st : List locked_ptr × World R CountMutex)
    (ops : List GuardOp) : List locked_ptr × World R CountMutex :=
  ops.foldl guardStep st

/-- Accounting invariant tying a guard pool to the counting mutex at
address `a`: every guard refers to that mutex, the address is allocated,
and Owning guards plus performed releases balance performed acquires. -/
def poolInv (a : Nat) (st : List locked_ptr × World R CountMutex) : Prop :=
  (∀ g ∈ st.1, g.mutexAddr = a) ∧
  a < st.2.mtx.length ∧
  owningCount st.1 + (st.2.getMtx a).count_unlock =
    (st.2.getMtx a).count_lock

/-- Replacing element `i` of a list trades its contribution to `countP`
for the new element's contribution. -/
theorem countP_set_of_get? (p : α → Bool) (gs : List α) (i : Nat)
    (g g' : α) (h : gs.get? i = some g) :
    (gs.set i g').countP p + (if p g then 1 else 0) =
      gs.countP p + (if p g' then 1 else 0) := by
  induction gs generalizing i with
  | nil => simp at h
  | cons x xs ih =>
    cases i with
    | zero =>
      simp only [List.get?_cons_zero, Option.some.injEq] at h
      subst h
      simp [List.countP_cons]
      omega
    | succ n =>
      simp only [List.get?_cons_succ] at h
      have e := ih n h
      simp [List.set, List.countP_cons]
      omega

/-- Removing element `i` of a list removes exactly its contribution to
`countP`. -/
theorem countP_eraseIdx_of_get? (p : α → Bool) (gs : List α) (i : Nat)
    (g : α) (h : gs.get? i = some g) :
    (gs.eraseIdx i).countP p + (if p g then 1 else 0) = gs.countP p := by
  induction gs generalizing i with
  | nil => simp at h
  | cons x xs ih =>
    cases i with
    | zero =>
      simp only [List.get?_cons_zero, Option.some.injEq] at h
      subst h
      simp [List.eraseIdx, List.countP_cons]
    | succ n =>
      simp only [List.get?_cons_succ] at h
      have e := ih n h
      simp [List.eraseIdx, List.countP_cons]
      omega

/-- Every pool operation preserves the accounting invariant: a move
transfers (or, from a Released source, copies nothing) without touching
the mutex, and a destruction either releases once while removing one
Owning guard or removes a Released guard without any mutex call. -/
theorem guardStep_inv (a : Nat) (op : GuardOp)
    (st : List locked_ptr × World R CountMutex) (h : poolInv a st) :
    poolInv a (guardStep st op) := by
  obtain ⟨haddr, hlen, hcnt⟩ := h
  cases op with
  | move i =>
    cases hg : st.1.get? i with
    | none =>
      have hstep : guardStep st (GuardOp.move i) = st := by
        simp only [guardStep, hg]
      rw [hstep]
      exact ⟨haddr, hlen, hcnt⟩
    | some g =>
      have hmem : g ∈ st.1 := List.get?_mem hg
      have hstep : guardStep st (GuardOp.move i) =
          ((st.1.set i (locked_ptr.moveConstruct g).2) ++
            [(locked_ptr.moveConstruct g).1], st.2) := by
        simp only [guardStep, hg]
      rw [hstep]
      refine ⟨?_, hlen, ?_⟩
      · intro x hx
        simp only [List.mem_append, List.mem_singleton] at hx
        rcases hx with hx | hx
        · rcases List.mem_or_eq_of_mem_set hx with hx' | hx'
          · exact haddr x hx'
          · subst hx'
            exact haddr g hmem
        · subst hx
          exact haddr g hmem
      · have e := countP_set_of_get? (fun g => g.ptr_.isSome) st.1 i g
          (locked_ptr.moveConstruct g).2 hg
        simp only [owningCount] at hcnt
        cases hps : g.ptr_.isSome with
        | false =>
          simp [locked_ptr.moveConstruct, hps] at e
          simp [owningCount, List.countP_append, List.countP_cons,
            locked_ptr.moveConstruct, hps]
          omega
        | true =>
          simp [locked_ptr.moveConstruct, hps] at e
          simp [owningCount, List.countP_append, List.countP_cons,
            locked_ptr.moveConstruct, hps]
          omega
  | destroy i =>
    cases hg : st.1.get? i with
    | none =>
      have hstep : guardStep st (GuardOp.destroy i) = st := by
        simp only [guardStep, hg]
      rw [hstep]
      exact ⟨haddr, hlen, hcnt⟩
    | some g =>
      have hmem : g ∈ st.1 := List.get?_mem hg
      have hga : g.mutexAddr = a := haddr g hmem
      have e := countP_eraseIdx_of_get? (fun g => g.ptr_.isSome) st.1 i g hg
      have hstep : guardStep st (GuardOp.destroy i) =
          (st.1.eraseIdx i, locked_ptr.destruct countMutexModel g st.2) := by
        simp only [guardStep, hg]
      rw [hstep]
      refine ⟨?_, ?_, ?_⟩
      · intro x hx
        exact haddr x ((List.eraseIdx_sublist st.1 i).subset hx)
      · cases hp : g.ptr_ with
        | none => simpa [locked_ptr.destruct, hp] using hlen
        | some q =>
          simpa [locked_ptr.destruct, hp, World.length_mtx_setMtx] using hlen
      · simp only [owningCount] at hcnt
        cases hp : g.ptr_ with
        | none =>
          simp [hp] at e
          simp [locked_ptr.destruct, hp, owningCount]
          omega
        | some q =>
          simp [hp] at e
          simp only [locked_ptr.destruct, hp, hga, owningCount]
          rw [World.getMtx_setMtx_self _ _ _ hlen]
          simp only [countMutexModel]
          omega

/-- Running any sequence of pool operations preserves the accounting
invariant. -/
theorem guardRun_inv (a : Nat) (ops : List GuardOp) :
    ∀ st : List locked_ptr × World R CountMutex,
      poolInv a st → poolInv a (guardRun st ops) := by
  induction ops with
  | nil => intro st h; exact h
  | cons op ops ih =>
    intro st h
    exact ih (guardStep st op) (guardStep_inv a op st h)

/-- C10: move-constructing from a Released guard yields another Released
guard and is a no-op on the world; destroying a Released guard (whether
the source of such a move or the moved-from copy) performs no release;
and from any pool satisfying the acquire/release accounting invariant, no
sequence of moves and destructions can drive the counting mutex's release
counter above its acquire counter. -/
theorem C10_released_guard_harmless [Inhabited σ] (M : MutexModel σ ε)
    (g0 : locked_ptr) (w0 : World R σ) (hg : g0.ptr_ = none)
    (a : Nat) (gs : List locked_ptr) (w : World R2 CountMutex)
    (ops : List GuardOp) (hinv : poolInv a (gs, w)) :
    (locked_ptr.moveConstruct g0).1.ptr_ = none ∧
    (locked_ptr.moveConstruct g0).1.owning = false ∧
    (locked_ptr.moveConstruct g0).2.ptr_ = none ∧
    locked_ptr.destruct M g0 w0 = w0 ∧
    locked_ptr.destruct M (locked_ptr.moveConstruct g0).1 w0 = w0 ∧
    locked_ptr.destruct M (locked_ptr.moveConstruct g0).2 w0 = w0 ∧
    ((guardRun (gs, w) ops).2.getMtx a).count_unlock ≤
      ((guardRun (gs, w) ops).2.getMtx a).count_lock := by
  obtain ⟨-, -, hc⟩ := guardRun_inv a ops (gs, w) hinv
  refine ⟨?_, ?_, ?_, ?_, ?_, ?_, by omega⟩
  · simp [locked_ptr.moveConstruct, hg]
  · simp [locked_ptr.moveConstruct, locked_ptr.owning, hg]
  · simp [locked_ptr.moveConstruct]
  · simp [locked_ptr.destruct, hg]
  · simp [locked_ptr.destruct, locked_ptr.moveConstruct, hg]
  · simp [locked_ptr.destruct, locked_ptr.moveConstruct]

/-- Witness for C10: a Released guard over the boolean mutex, and a pool
holding one Owning guard of a counting mutex with one recorded acquire,
run through two moves and three destructions. -/
theorem C10_witness :
    (locked_ptr.moveConstruct (locked_ptr.mk none 0 false)).1.ptr_ = none ∧
    (locked_ptr.moveConstruct (locked_ptr.mk none 0 false)).1.owning =
      false ∧
    (locked_ptr.moveConstruct (locked_ptr.mk none 0 false)).2.ptr_ = none ∧
    locked_ptr.destruct boolMutexModel (locked_ptr.mk none 0 false)
      (World.mk [5] [false] : World Nat Bool) =
      (World.mk [5] [false] : World Nat Bool) ∧
    locked_ptr.destruct boolMutexModel
      (locked_ptr.moveConstruct (locked_ptr.mk none 0 false)).1
      (World.mk [5] [false] : World Nat Bool) =
      (World.mk [5] [false] : World Nat Bool) ∧
    locked_ptr.destruct boolMutexModel
      (locked_ptr.moveConstruct (locked_ptr.mk none 0 false)).2
      (World.mk [5] [false] : World Nat Bool) =
      (World.mk [5] [false] : World Nat Bool) ∧
    ((guardRun ([locked_ptr.mk (some 0) 0 false],
        (World.mk [5] [CountMutex.mk 1 0] : World Nat CountMutex))
        [GuardOp.move 0, GuardOp.move 1, GuardOp.destroy 2,
          GuardOp.destroy 0, GuardOp.destroy 0]).2.getMtx 0).count_unlock ≤
      ((guardRun ([locked_ptr.mk (some 0) 0 false],
        (World.mk [5] [CountMutex.mk 1 0] : World Nat CountMutex))
        [GuardOp.move 0, GuardOp.move 1, GuardOp.destroy 2,
          GuardOp.destroy 0, GuardOp.destroy 0]).2.getMtx 0).count_lock :=
  C10_released_guard_harmless boolMutexModel (locked_ptr.mk none 0 false)
    (World.mk [5] [false]) rfl 0 [locked_ptr.mk (some 0) 0 false]
    (World.mk [5] [CountMutex.mk 1 0])
    [GuardOp.move 0, GuardOp.move 1, GuardOp.destroy 2, GuardOp.destroy 0,
      GuardOp.destroy 0]
    ⟨by decide, by decide, by decide⟩
